import Mathlib

/-!
# Verification of the CrackLeaf unlock-session state machine

Shallow embedding of `crackleaf-rs/src/main.rs` (a PDF-restriction-removal
desktop utility).  Pure logic is translated function by function; the
external world (the `qpdf` child process, the filesystem, wall-clock time)
is passed in explicitly:

* a probe result is an `Option (Bool × String)` — `none` for a spawn
  failure, otherwise the exit-success flag and captured stdout;
* the filesystem, where only existence is consulted, is a predicate
  `String → Bool` on paths;
* an animation tick models one elapsed `frame_interval`; the wall-clock
  guard itself is outside the state.

String handling: Rust `str::to_lowercase` / `contains` /
`split_whitespace` are modelled character-wise on `String.data`.
-/

namespace CrackLeaf

/-- Char-wise lowercasing, modelling Rust `str::to_lowercase` on the
ASCII alphabet (all the compared substrings are ASCII). -/
def lowerStr (s : String) : String :=
  ⟨s.data.map Char.toLower⟩

/-- `containsSub s pat` models Rust `str::contains`: `pat` occurs as a
contiguous substring of `s`. -/
def containsSub (s pat : String) : Bool :=
  (s.data.tails).any (fun t => pat.data.isPrefixOf t)

/-- Whitespace-separated tokens of a string as character lists,
modelling Rust `str::split_whitespace` (empty tokens are dropped). -/
def splitWhitespace (s : String) : List (List Char) :=
  (s.data.splitOnP Char.isWhitespace).filter (fun t => t ≠ [])

/-- Characters with leading and trailing whitespace removed, modelling
Rust `str::trim`. -/
def trimChars (l : List Char) : List Char :=
  ((l.dropWhile Char.isWhitespace).reverse.dropWhile Char.isWhitespace).reverse

/-- String form of `trimChars`. -/
def trimStr (s : String) : String :=
  ⟨trimChars s.data⟩

/-- `is_pdf` (main.rs lines 626-631): the extension, compared
ASCII-case-insensitively, is `pdf`.  Paths are plain strings; the
extension is what follows the last `.`, mirroring `Path::extension` for
the simple paths considered here (a file name with an extension). -/
def is_pdf (path : String) : Bool :=
  let parts := path.data.splitOnP (fun c => c = '.')
  match parts.getLast? with
  | some ext => parts.length ≥ 2 && ext.map Char.toLower = ['p', 'd', 'f']
  | none => false

/-- `FileEntry` (main.rs lines 21-28). -/
structure FileEntry where
  path : String
  icon : String
  status : String
  unlock_result : Option Bool
  output_path : Option String
deriving DecidableEq, Repr

/-- `UnlockMessage` (main.rs lines 30-38). -/
inductive UnlockMessage where
  | FileResult (index : Nat) (success : Bool) (output_path : Option String)
  | Info (msg : String)
  | Done
deriving DecidableEq, Repr

/-- `AnimationMode` (main.rs lines 40-46). -/
inductive AnimationMode where
  | Logo
  | HappyLoop
  | Peck
  | Success
deriving DecidableEq, Repr

/-- `AnimationState` (main.rs lines 48-52). -/
structure AnimationState where
  mode : AnimationMode
  frame_index : Nat
  loops_left : Nat
deriving DecidableEq, Repr

/-- The session-relevant fields of `CrackLeafApp` (main.rs lines 54-73).
Textures, fonts and wall-clock timestamps are outside the model; the
worker receiver is modelled as the flag `unlock_rx` (is a receiver
installed). -/
structure AppState where
  file_entries : List FileEntry
  animation : AnimationState
  unlock_in_progress : Bool
  unlock_ready_for_success : Bool
  unlock_work_done : Bool
  result_text : String
  unlock_rx : Bool
  success_reverse : Bool
  qpdf_ok : Bool
  qpdf_error : Option String
  had_unlock : Bool
deriving DecidableEq, Repr

/-- `set_mode` (main.rs lines 130-136). -/
def set_mode (s : AppState) (mode : AnimationMode) : AppState :=
  if s.animation.mode ≠ mode then
    { s with animation := { mode := mode, frame_index := 0, loops_left := 0 } }
  else
    s

/-- `start_happy_loop` (main.rs lines 138-140). -/
def start_happy_loop (s : AppState) : AppState :=
  set_mode s AnimationMode.HappyLoop

/-- `start_peck` (main.rs lines 142-146). -/
def start_peck (s : AppState) : AppState :=
  { s with animation := { mode := AnimationMode.Peck, frame_index := 0, loops_left := 2 } }

/-- `start_success` (main.rs lines 148-153). -/
def start_success (s : AppState) (reverse : Bool) : AppState :=
  { s with
    success_reverse := reverse,
    animation := { mode := AnimationMode.Success, frame_index := 0, loops_left := 1 } }

/-- `maybe_start_success_animation` (main.rs lines 218-240). -/
def maybe_start_success_animation (s : AppState) : AppState :=
  if !(s.unlock_ready_for_success && s.unlock_work_done) then
    s
  else
    let success_count := (s.file_entries.filter (fun f => f.unlock_result = some true)).length
    let total_count := s.file_entries.length
    let is_failure := total_count > 0 && success_count = 0
    let s :=
      if success_count = total_count && total_count > 0 then
        { s with result_text := "解锁成功" }
      else if success_count > 0 then
        { s with result_text := "部分成功: " ++ toString success_count ++ "/" ++ toString total_count }
      else
        { s with result_text := "解锁失败" }
    start_success s is_failure

/-- Frame-set sizes fixed by `load_frames` (main.rs lines 584-611):
`logo` has 1 frame, `happy_loop` 7, `peck` 2, `success` and
`success_reverse` 5 each (placeholders are substituted on load failure,
so the lengths never vary). -/
def frameCount (s : AppState) : Nat :=
  match s.animation.mode with
  | AnimationMode.Logo => 1
  | AnimationMode.HappyLoop => 7
  | AnimationMode.Peck => 2
  | AnimationMode.Success => 5

/-- `tick_animation` (main.rs lines 155-216), modelling one tick on which
the frame interval has elapsed (the early-return on Logo mode is kept;
the wall-clock comparison and repaint requests are outside the state). -/
def tick_animation (s : AppState) : AppState :=
  if s.animation.mode = AnimationMode.Logo then
    s
  else
    let fc := frameCount s
    if fc = 0 then
      s
    else
      let fi := (s.animation.frame_index + 1) % fc
      let s := { s with animation := { s.animation with frame_index := fi } }
      match s.animation.mode with
      | AnimationMode.HappyLoop => s
      | AnimationMode.Logo => s
      | AnimationMode.Peck =>
        if fi = 0 then
          let ll := if s.animation.loops_left > 0 then s.animation.loops_left - 1
                    else s.animation.loops_left
          let s := { s with animation := { s.animation with loops_left := ll } }
          if ll = 0 then
            let s := { s with unlock_ready_for_success := true }
            let s := set_mode s AnimationMode.Logo
            maybe_start_success_animation s
          else
            s
        else
          s
      | AnimationMode.Success =>
        if fi = 0 then
          let ll := s.animation.loops_left - 1
          let s := { s with animation := { s.animation with loops_left := ll } }
          if ll = 0 then
            let s := { s with unlock_in_progress := false }
            if s.file_entries ≠ [] then
              start_happy_loop s
            else
              set_mode s AnimationMode.Logo
          else
            s
        else
          s

/-- `detect_encrypted` (main.rs lines 633-657), as a function of the
captured probe result: `none` for a spawn failure, otherwise the
exit-success flag and stdout. -/
def detect_encrypted (out : Option (Bool × String)) : Option Bool :=
  match out with
  | none => none
  | some (ok, stdout) =>
    if !ok then
      none
    else
      let lower := lowerStr stdout
      if containsSub lower "file is encrypted"
          || containsSub lower "encryption: yes"
          || containsSub lower "user password"
          || containsSub lower "owner password" then
        some true
      else if containsSub lower "file is not encrypted" || containsSub lower "not encrypted" then
        some false
      else
        none

/-- The loop body of `add_files` (main.rs lines 268-288): skip non-PDF
paths and duplicates, otherwise probe and append a fresh entry, marking
`added`. -/
def add_one (probe : String → Option Bool) (acc : AppState × Bool) (path : String) :
    AppState × Bool :=
  let (s, added) := acc
  if !is_pdf path then
    (s, added)
  else if s.file_entries.any (fun f => f.path = path) then
    (s, added)
  else
    let entry :=
      match probe path with
      | some true => FileEntry.mk path "🔒" "加密受限" none none
      | some false => FileEntry.mk path "🔓" "未受限" none none
      | none => FileEntry.mk path "🔒" "未知" none none
    ({ s with file_entries := s.file_entries ++ [entry] }, true)

/-- `add_files` (main.rs lines 261-292).  `probe` gives, per path, the
result of the synchronous encryption probe (`detect_encrypted` applied
to that file's qpdf output). -/
def add_files (probe : String → Option Bool) (s : AppState) (paths : List String) : AppState :=
  let s :=
    if s.had_unlock then
      { s with file_entries := [], result_text := "", had_unlock := false }
    else
      s
  let sa := paths.foldl (add_one probe) (s, false)
  if sa.2 then { sa.1 with result_text := "" } else sa.1

/-- `start_unlock` (main.rs lines 294-309).  The second component is the
snapshot handed to the spawned worker thread — `none` when no worker is
spawned. -/
def start_unlock (s : AppState) : AppState × Option (List FileEntry) :=
  if s.unlock_in_progress || s.file_entries.isEmpty then
    (s, none)
  else
    let s := { s with
      unlock_in_progress := true,
      unlock_ready_for_success := false,
      unlock_work_done := false,
      result_text := "处理中..." }
    let s := start_peck s
    let snapshot := s.file_entries
    ({ s with unlock_rx := true }, some snapshot)

/-- The mascot-click path of `CrackLeafApp::update` when the entry list
is non-empty (main.rs lines 453-461): if qpdf is not ok, copy the stored
error into `result_text` and return; otherwise call `start_unlock`. -/
def click_unlock (s : AppState) : AppState × Option (List FileEntry) :=
  if !s.qpdf_ok then
    match s.qpdf_error with
    | some msg => ({ s with result_text := msg }, none)
    | none => (s, none)
  else
    start_unlock s

/-- Effect of a single drained `UnlockMessage` in
`handle_unlock_messages` (main.rs lines 311-363).  `probe` is the
re-probe `detect_encrypted` run on the output file in the success
branch. -/
def apply_message (probe : String → Option Bool) (s : AppState) (msg : UnlockMessage) : AppState :=
  match msg with
  | UnlockMessage.FileResult index success output_path =>
    match s.file_entries.get? index with
    | none => s
    | some entry =>
      let entry := { entry with unlock_result := some success }
      let entry :=
        if success then { entry with output_path := output_path } else entry
      let entry :=
        if success then
          let entry := { entry with status := "解锁成功" }
          match entry.output_path with
          | some p =>
            match probe p with
            | some is_encrypted =>
              { entry with icon := if is_encrypted then "🔒" else "🔓" }
            | none => { entry with icon := "🔓" }
          | none => { entry with icon := "🔓" }
        else
          { entry with status := "解锁失败" }
      { s with file_entries := s.file_entries.set index entry }
  | UnlockMessage.Info msg =>
    if s.result_text = "" || s.result_text = "处理中..." then
      { s with result_text := msg }
    else
      s
  | UnlockMessage.Done =>
    let s := { s with unlock_work_done := true, had_unlock := true, unlock_rx := false }
    maybe_start_success_animation s

/-- One candidate output filename: `<base>_<idx>.pdf` inside `dir`
(`format!` in `unique_output_path`, main.rs line 723). -/
def candidatePath (dir base : String) (idx : Nat) : String :=
  dir ++ "/" ++ base ++ "_" ++ toString idx ++ ".pdf"

/-- The numbered-candidate loop of `unique_output_path` (main.rs lines
722-727): try `candidatePath dir base idx`, `idx+1`, … for `fuel` steps,
falling through to `<base>_overflow.pdf`.  `ex` is filesystem existence. -/
def findCandidate (ex : String → Bool) (dir base : String) : Nat → Nat → String
  | 0, _ => dir ++ "/" ++ base ++ "_overflow.pdf"
  | fuel + 1, idx =>
    if ex (candidatePath dir base idx) then
      findCandidate ex dir base fuel (idx + 1)
    else
      candidatePath dir base idx

/-- `unique_output_path` (main.rs lines 716-729). -/
def unique_output_path (ex : String → Bool) (output_dir file_stem : String) : String :=
  let base := file_stem ++ "_unlocked"
  let first := output_dir ++ "/" ++ base ++ ".pdf"
  if ex first then
    findCandidate ex output_dir base 9999 1
  else
    first

/-- `unlock_pdf` (main.rs lines 688-714), as a function of the qpdf
invocation outcome: `spawn` is `none` on spawn failure (carrying the OS
error text `err` below), otherwise the exit-success flag; `out_exists`
is whether the chosen output path exists after the run.  `Except.error`
carries the message built at main.rs lines 702-704. -/
def unlock_pdf (spawn : Option Bool) (err : String) (out_exists : Bool)
    (output_path : String) : Except String (Option String) :=
  match spawn with
  | none =>
    Except.error ("qpdf 执行失败（请把 qpdf 放在程序同目录或加入 PATH）: " ++ err)
  | some exit_ok =>
    if !exit_ok then
      Except.ok none
    else if out_exists then
      Except.ok (some output_path)
    else
      Except.ok none

/-- The per-entry message batch of `run_unlock` (main.rs lines 660-682):
what the worker sends for entry `index` given its `unlock_pdf` result. -/
def run_unlock_entry (index : Nat) (r : Except String (Option String)) : List UnlockMessage :=
  match r with
  | Except.ok output_path =>
    [UnlockMessage.FileResult index output_path.isSome output_path]
  | Except.error err =>
    [UnlockMessage.FileResult index false none,
     UnlockMessage.Info ("解锁失败: " ++ err)]

/-- `run_unlock` (main.rs lines 659-686): per-entry batches in order,
then `Done`.  `results i` is the `unlock_pdf` outcome for entry `i`. -/
def run_unlock (files : List FileEntry) (results : Nat → Except String (Option String)) :
    List UnlockMessage :=
  ((List.range files.length).flatMap (fun i => run_unlock_entry i (results i)))
    ++ [UnlockMessage.Done]

/-- `QpdfStatus` (main.rs lines 772-777). -/
structure QpdfStatus where
  ok : Bool
  error : Option String
  version : Option String
  warning : Option String
deriving DecidableEq, Repr

/-- `parse_qpdf_version` (main.rs lines 828-835): the first
whitespace-separated token of the output whose first character is an
ASCII digit, trimmed. -/
def parse_qpdf_version (output : String) : Option String :=
  ((splitWhitespace output).find? (fun t =>
    match t.head? with
    | some c => c.isDigit
    | none => false)).map (fun t => String.mk (trimChars t))

/-- `check_qpdf_ready` (main.rs lines 779-826), as a function of the
`qpdf --version` invocation outcome: `none` for a spawn failure
(carrying the OS error text `err`), otherwise the exit-success flag,
stdout, and stderr. -/
def check_qpdf_ready (run : Option (Bool × String × String)) (err : String) : QpdfStatus :=
  match run with
  | some (exit_ok, stdout, stderr) =>
    if exit_ok then
      let version := parse_qpdf_version stdout
      let warning :=
        if version.isNone then some "已检测到 qpdf，但版本无法识别" else none
      QpdfStatus.mk true none version warning
    else
      let stderrT := trimStr stderr
      let msg :=
        if stderrT = "" then
          "qpdf 运行失败（依赖缺失或版本不匹配）"
        else
          "qpdf 运行失败：" ++ stderrT
      QpdfStatus.mk false (some msg) none none
  | none =>
    QpdfStatus.mk false (some ("qpdf 不可用（请把 qpdf 放在程序同目录）：" ++ err)) none none

/-! ## Concrete states used by witnesses and counterexamples -/

/-- A probe that always fails to classify (spawn failure / unknown). -/
def probeNone : String → Option Bool := fun _ => none

/-- The freshly constructed session (`CrackLeafApp::new`, main.rs lines
76-106) with a healthy tool. -/
def st0 : AppState :=
  { file_entries := []
    animation := { mode := AnimationMode.Logo, frame_index := 0, loops_left := 0 }
    unlock_in_progress := false
    unlock_ready_for_success := false
    unlock_work_done := false
    result_text := ""
    unlock_rx := false
    success_reverse := false
    qpdf_ok := true
    qpdf_error := none
    had_unlock := false }

/-- A one-entry list holding the file `a.pdf`, locked and unprobed. -/
def entryA : FileEntry :=
  { path := "a.pdf", icon := "🔒", status := "未知", unlock_result := none, output_path := none }

/-- A rendezvous state: two entries attempted, the first unlocked
successfully, both flags set. -/
def stMix : AppState :=
  { st0 with
    file_entries :=
      [FileEntry.mk "a.pdf" "🔓" "解锁成功" (some true) (some "d/a_unlocked.pdf"),
       FileEntry.mk "b.pdf" "🔒" "解锁失败" (some false) none],
    unlock_in_progress := true,
    unlock_ready_for_success := true,
    unlock_work_done := true,
    result_text := "处理中..." }

/-! ## Theorems -/

/-- C9: a `FileResult` message whose index is at or past the end of the
entry list leaves the session state unchanged (the `get_mut` lookup in
`handle_unlock_messages` yields nothing, so the message is silently
dropped and no entry is modified). -/
theorem fileresult_out_of_range_is_ignored (probe : String → Option Bool) (s : AppState)
    (index : Nat) (success : Bool) (out : Option String)
    (h : s.file_entries.length ≤ index) :
    apply_message probe s (UnlockMessage.FileResult index success out) = s := by
  have hg : s.file_entries.get? index = none := List.get?_eq_none.mpr h
  simp only [apply_message, hg]

/-- Witness for C9 at a concrete state: index 2 against a one-entry list. -/
theorem fileresult_out_of_range_is_ignored_witness :
    apply_message probeNone { st0 with file_entries := [entryA] }
      (UnlockMessage.FileResult 2 true none) = { st0 with file_entries := [entryA] } :=
  fileresult_out_of_range_is_ignored probeNone _ 2 true none (by decide)

/-- On a fresh `.pdf` path that is not yet in the list, the `add_files`
loop body appends exactly one entry carrying that path and marks
`added`. -/
theorem add_one_appends (probe : String → Option Bool) (s : AppState) (added : Bool)
    (p : String) (hpdf : is_pdf p = true) (hnew : ∀ f ∈ s.file_entries, f.path ≠ p) :
    ∃ e : FileEntry, e.path = p ∧
      add_one probe (s, added) p = ({ s with file_entries := s.file_entries ++ [e] }, true) := by
  have hany : s.file_entries.any (fun f => f.path = p) = false := by
    simp only [List.any_eq_false, decide_eq_true_eq]
    exact hnew
  cases hpp : probe p with
  | none =>
    exact ⟨FileEntry.mk p "🔒" "未知" none none, rfl, by simp [add_one, hpdf, hany, hpp]⟩
  | some b =>
    cases b with
    | false =>
      exact ⟨FileEntry.mk p "🔓" "未受限" none none, rfl, by simp [add_one, hpdf, hany, hpp]⟩
    | true =>
      exact ⟨FileEntry.mk p "🔒" "加密受限" none none, rfl, by simp [add_one, hpdf, hany, hpp]⟩

/-- C2 counterexample: `add_files` imposes no length cap, so nine
distinct PDF paths dropped on a fresh session yield nine entries,
refuting `entries.len() ≤ 8` for reachable states. -/
theorem entry_list_exceeds_eight :
    (add_files probeNone st0
      ["a1.pdf", "a2.pdf", "a3.pdf", "a4.pdf", "a5.pdf", "a6.pdf", "a7.pdf", "a8.pdf", "a9.pdf"]
      ).file_entries.length = 9 ∧
    ¬ ((add_files probeNone st0
      ["a1.pdf", "a2.pdf", "a3.pdf", "a4.pdf", "a5.pdf", "a6.pdf", "a7.pdf", "a8.pdf", "a9.pdf"]
      ).file_entries.length ≤ 8) := by
  exact ⟨by decide, by decide⟩

/-- C2 amended: `add_files` silently ignores non-PDF paths and duplicate
paths but imposes no capacity limit — a new `.pdf` path is appended
whatever the current length (the constant `LIST_MAX_FILES = 8` only
bounds window-height growth in `update_window_size`). -/
theorem add_files_appends_without_cap (probe : String → Option Bool) (s : AppState)
    (p : String) (hh : s.had_unlock = false) (hpdf : is_pdf p = true)
    (hnew : ∀ f ∈ s.file_entries, f.path ≠ p) :
    (add_files probe s [p]).file_entries.length = s.file_entries.length + 1 := by
  unfold add_files
  simp only [hh, Bool.false_eq_true, if_false, List.foldl_cons, List.foldl_nil]
  obtain ⟨e, _, hstep⟩ := add_one_appends probe s false p hpdf hnew
  rw [hstep]
  simp

/-- C10: `add_files` does not consult `unlock_in_progress` — while an
unlock is running, a new `.pdf` path is still appended to the entry
list (the code's choice for the Add-during-unlock policy), so the list
seen at the success rendezvous can differ from the worker's snapshot. -/
theorem add_not_blocked_during_unlock (probe : String → Option Bool) (s : AppState)
    (p : String) (hprog : s.unlock_in_progress = true) (hpdf : is_pdf p = true)
    (hnew : ∀ f ∈ s.file_entries, f.path ≠ p) :
    (add_files probe s [p]).file_entries.map (fun f => f.path) =
      (if s.had_unlock then [] else s.file_entries.map (fun f => f.path)) ++ [p] := by
  unfold add_files
  cases hh : s.had_unlock with
  | true =>
    simp only [hh, if_true, List.foldl_cons, List.foldl_nil]
    obtain ⟨e, hep, hstep⟩ := add_one_appends probe
      { s with file_entries := [], result_text := "", had_unlock := false } false p hpdf
      (fun f hf => absurd hf (List.not_mem_nil f))
    rw [hstep]
    simp [hep]
  | false =>
    simp only [hh, Bool.false_eq_true, if_false, List.foldl_cons, List.foldl_nil]
    obtain ⟨e, hep, hstep⟩ := add_one_appends probe s false p hpdf hnew
    rw [hstep]
    simp [hep]

/-- Witness for C10: during an in-progress unlock on `a.pdf`, adding
`b.pdf` extends the visible list. -/
theorem add_not_blocked_during_unlock_witness :
    (add_files probeNone
      { st0 with file_entries := [entryA], unlock_in_progress := true, unlock_rx := true }
      ["b.pdf"]).file_entries.map (fun f => f.path) = ["a.pdf"] ++ ["b.pdf"] := by
  have h := add_not_blocked_during_unlock probeNone
    { st0 with file_entries := [entryA], unlock_in_progress := true, unlock_rx := true }
    "b.pdf" (by decide) (by decide) (by decide)
  exact h.trans (by decide)

/-- Witness for C2 amended: appending a ninth entry to an eight-entry list. -/
theorem add_files_appends_without_cap_witness :
    (add_files probeNone
      { st0 with file_entries :=
        [{ entryA with path := "a1.pdf" }, { entryA with path := "a2.pdf" },
         { entryA with path := "a3.pdf" }, { entryA with path := "a4.pdf" },
         { entryA with path := "a5.pdf" }, { entryA with path := "a6.pdf" },
         { entryA with path := "a7.pdf" }, { entryA with path := "a8.pdf" }] }
      ["a9.pdf"]).file_entries.length = 8 + 1 :=
  add_files_appends_without_cap probeNone _ "a9.pdf" (by decide) (by decide) (by decide)

/-- C6: classification of `detect_encrypted` — `some true` (encrypted)
exactly when the invocation spawned, exited successfully and the
lowercased stdout contains one of the four encrypted markers;
`some false` (not encrypted) exactly when it exited successfully,
contains a not-encrypted marker and none of the encrypted markers; and
`none` (unknown) otherwise, in particular on non-zero exit and on spawn
failure. -/
theorem detect_encrypted_classification (ok : Bool) (stdout : String) :
    detect_encrypted none = none
    ∧ (detect_encrypted (some (ok, stdout)) = some true ↔
        ok = true
        ∧ (containsSub (lowerStr stdout) "file is encrypted" = true
          ∨ containsSub (lowerStr stdout) "encryption: yes" = true
          ∨ containsSub (lowerStr stdout) "user password" = true
          ∨ containsSub (lowerStr stdout) "owner password" = true))
    ∧ (detect_encrypted (some (ok, stdout)) = some false ↔
        ok = true
        ∧ (containsSub (lowerStr stdout) "file is not encrypted" = true
          ∨ containsSub (lowerStr stdout) "not encrypted" = true)
        ∧ ¬ (containsSub (lowerStr stdout) "file is encrypted" = true
          ∨ containsSub (lowerStr stdout) "encryption: yes" = true
          ∨ containsSub (lowerStr stdout) "user password" = true
          ∨ containsSub (lowerStr stdout) "owner password" = true)) := by
  refine ⟨rfl, ?_, ?_⟩ <;>
  · cases h1 : containsSub (lowerStr stdout) "file is encrypted" <;>
    cases h2 : containsSub (lowerStr stdout) "encryption: yes" <;>
    cases h3 : containsSub (lowerStr stdout) "user password" <;>
    cases h4 : containsSub (lowerStr stdout) "owner password" <;>
    cases h5 : containsSub (lowerStr stdout) "file is not encrypted" <;>
    cases h6 : containsSub (lowerStr stdout) "not encrypted" <;>
    cases ok <;>
    simp [detect_encrypted, h1, h2, h3, h4, h5, h6]

/-- C8: classification of the startup probe `check_qpdf_ready` — on
spawn failure, `missing` with the OS error text; on non-zero exit,
`missing` with the trimmed stderr, or the generic fallback when that is
empty; on exit success, `ok`, with the first whitespace-separated
stdout token starting in an ASCII digit as the version, or a
version-unrecognized warning when there is no such token. -/
theorem check_qpdf_ready_classification (exit_ok : Bool) (stdout stderr err : String) :
    check_qpdf_ready none err =
      QpdfStatus.mk false (some ("qpdf 不可用（请把 qpdf 放在程序同目录）：" ++ err)) none none
    ∧ (exit_ok = false →
        check_qpdf_ready (some (exit_ok, stdout, stderr)) err =
          QpdfStatus.mk false
            (some (if trimStr stderr = "" then "qpdf 运行失败（依赖缺失或版本不匹配）"
                   else "qpdf 运行失败：" ++ trimStr stderr)) none none)
    ∧ (exit_ok = true →
        check_qpdf_ready (some (exit_ok, stdout, stderr)) err =
          match (splitWhitespace stdout).find?
              (fun t => (t.head?.map Char.isDigit).getD false) with
          | some t => QpdfStatus.mk true none (some (String.mk (trimChars t))) none
          | none => QpdfStatus.mk true none none (some "已检测到 qpdf，但版本无法识别")) := by
  refine ⟨rfl, ?_, ?_⟩
  · intro h
    subst h
    rfl
  · intro h
    subst h
    have hpred : (fun (t : List Char) =>
        match t.head? with
        | some c => c.isDigit
        | none => false) =
        (fun (t : List Char) => (t.head?.map Char.isDigit).getD false) := by
      funext t
      cases t.head? <;> rfl
    simp only [check_qpdf_ready, if_true, parse_qpdf_version, hpred]
    cases hf : (splitWhitespace stdout).find?
        (fun t => (t.head?.map Char.isDigit).getD false) <;>
      simp [hf]

/-- Witness for C8 at concrete probe outcomes: a healthy
`qpdf version 11.9.0` response, and a non-zero exit with stderr
`boom`. -/
theorem check_qpdf_ready_classification_witness :
    check_qpdf_ready (some (true, "qpdf version 11.9.0", "")) "" =
      QpdfStatus.mk true none (some "11.9.0") none
    ∧ check_qpdf_ready (some (false, "", " boom ")) "" =
      QpdfStatus.mk false (some "qpdf 运行失败：boom") none none := by
  constructor
  · exact ((check_qpdf_ready_classification true "qpdf version 11.9.0" "" "").2.2 rfl).trans
      (by decide)
  · exact ((check_qpdf_ready_classification false "" " boom " "").2.1 rfl).trans (by decide)

/-- C7 counterexample: when the unlock invocation exits zero but the
output file does not exist, `unlock_pdf` returns `Ok(None)` and the
worker computes `success = output_path.is_some() = false`, so the
posted message is a per-file failure — not "a per-file success with no
path" as the claim states. -/
theorem success_exit_missing_output_posts_failure :
    run_unlock_entry 0 (unlock_pdf (some true) "" false "d/a_unlocked.pdf") =
      [UnlockMessage.FileResult 0 false none]
    ∧ UnlockMessage.FileResult 0 true none ∉
        run_unlock_entry 0 (unlock_pdf (some true) "" false "d/a_unlocked.pdf") := by
  exact ⟨rfl, by decide⟩

/-- C7 amended: for an entry whose unlock invocation exits zero but
whose output file does not exist afterwards, the worker posts a
per-file failure with no path, and applying that message leaves the
entry with `unlock_result = Some(false)`, status `解锁失败`, and its
`output_path` untouched (so still unset). -/
theorem missing_output_recorded_as_failure (probe : String → Option Bool) (s : AppState)
    (i : Nat) (e : FileEntry) (err out_path : String)
    (he : s.file_entries.get? i = some e) :
    run_unlock_entry i (unlock_pdf (some true) err false out_path) =
      [UnlockMessage.FileResult i false none]
    ∧ (apply_message probe s (UnlockMessage.FileResult i false none)).file_entries.get? i =
        some { e with unlock_result := some false, status := "解锁失败" } := by
  constructor
  · rfl
  · have hi : i < s.file_entries.length := by
      by_contra hlt
      rw [List.get?_eq_none.mpr (Nat.le_of_not_lt hlt)] at he
      exact Option.noConfusion he
    simp only [apply_message, he, Bool.false_eq_true, if_false]
    rw [List.get?_set_eq_of_lt _ (by simpa using hi)]

/-- Witness for C7 amended at a concrete one-entry session. -/
theorem missing_output_recorded_as_failure_witness :
    run_unlock_entry 0 (unlock_pdf (some true) "" false "d/a_unlocked.pdf") =
      [UnlockMessage.FileResult 0 false none]
    ∧ (apply_message probeNone { st0 with file_entries := [entryA] }
        (UnlockMessage.FileResult 0 false none)).file_entries.get? 0 =
        some { entryA with unlock_result := some false, status := "解锁失败" } :=
  missing_output_recorded_as_failure probeNone { st0 with file_entries := [entryA] }
    0 entryA "" "d/a_unlocked.pdf" (by decide)

/-- C4: at the success rendezvous (both flags set), with `N` the entry
count and `K` the number of entries whose unlock succeeded: the Success
animation plays forward when `K ≥ 1` and in reverse when `K = 0 ∧ N ≥ 1`;
the summary is `解锁成功` when `K = N ∧ N ≥ 1`, `部分成功: K/N` when
`0 < K < N`, and `解锁失败` when `K = 0`. -/
theorem success_rendezvous_outcome (s : AppState)
    (hr : s.unlock_ready_for_success = true) (hd : s.unlock_work_done = true) :
    (1 ≤ (s.file_entries.filter (fun f => f.unlock_result = some true)).length →
      (maybe_start_success_animation s).animation.mode = AnimationMode.Success
      ∧ (maybe_start_success_animation s).success_reverse = false)
    ∧ ((s.file_entries.filter (fun f => f.unlock_result = some true)).length = 0 →
        1 ≤ s.file_entries.length →
      (maybe_start_success_animation s).animation.mode = AnimationMode.Success
      ∧ (maybe_start_success_animation s).success_reverse = true)
    ∧ ((s.file_entries.filter (fun f => f.unlock_result = some true)).length =
          s.file_entries.length →
        1 ≤ s.file_entries.length →
      (maybe_start_success_animation s).result_text = "解锁成功")
    ∧ (1 ≤ (s.file_entries.filter (fun f => f.unlock_result = some true)).length →
        (s.file_entries.filter (fun f => f.unlock_result = some true)).length <
          s.file_entries.length →
      (maybe_start_success_animation s).result_text = "部分成功: "
        ++ toString (s.file_entries.filter (fun f => f.unlock_result = some true)).length
        ++ "/" ++ toString s.file_entries.length)
    ∧ ((s.file_entries.filter (fun f => f.unlock_result = some true)).length = 0 →
      (maybe_start_success_animation s).result_text = "解锁失败") := by
  unfold maybe_start_success_animation
  rw [hr, hd]
  simp only [Bool.and_self, Bool.not_true, Bool.false_eq_true, if_false]
  set K := (s.file_entries.filter (fun f => f.unlock_result = some true)).length with hK
  set N := s.file_entries.length with hN
  refine ⟨?_, ?_, ?_, ?_, ?_⟩
  · intro h1
    have e0 : decide (K = 0) = false := by simp; omega
    constructor
    · simp [start_success]
    · simp [start_success, e0]
  · intro h0 h1
    have e0 : decide (K = 0) = true := by simp [h0]
    have e1 : decide (N > 0) = true := by simp; omega
    constructor
    · simp [start_success]
    · simp [start_success, e0, e1]
  · intro hKN h1
    have e1 : (decide (K = N) && decide (N > 0)) = true := by simp [hKN]; omega
    simp [start_success, e1]
  · intro h1 h2
    have e1 : (decide (K = N) && decide (N > 0)) = false := by simp; omega
    simp only [start_success, e1, Bool.false_eq_true, if_false]
    rw [if_pos (show 0 < K from h1)]
  · intro h0
    have e1 : (decide (K = N) && decide (N > 0)) = false := by
      simp
      omega
    simp only [start_success, e1, Bool.false_eq_true, if_false]
    rw [if_neg (show ¬ 0 < K by omega)]

/-- Witness for C4 at a concrete rendezvous: two entries, one
succeeded — forward Success with summary `部分成功: 1/2`. -/
theorem success_rendezvous_outcome_witness :
    (maybe_start_success_animation stMix).animation.mode = AnimationMode.Success
    ∧ (maybe_start_success_animation stMix).success_reverse = false
    ∧ (maybe_start_success_animation stMix).result_text = "部分成功: "
        ++ toString (1 : Nat) ++ "/" ++ toString (2 : Nat) := by
  have h := success_rendezvous_outcome stMix (by decide) (by decide)
  refine ⟨(h.1 (by decide)).1, (h.1 (by decide)).2, ?_⟩
  have ht := h.2.2.2.1 (by decide) (by decide)
  exact ht.trans (by decide)

/-- When every candidate within `fuel` steps from `start` exists, the
numbered-candidate loop falls through to the overflow name. -/
theorem findCandidate_all_exist (ex : String → Bool) (dir base : String) :
    ∀ fuel start, (∀ k, k < fuel → ex (candidatePath dir base (start + k)) = true) →
    findCandidate ex dir base fuel start = dir ++ "/" ++ base ++ "_overflow.pdf" := by
  intro fuel
  induction fuel with
  | zero =>
    intro start _
    rfl
  | succ n ih =>
    intro start h
    have h0 : ex (candidatePath dir base start) = true := by
      have := h 0 (Nat.succ_pos n)
      simpa using this
    simp only [findCandidate, h0, if_true]
    apply ih
    intro k hk
    have hs : start + 1 + k = start + (k + 1) := by omega
    rw [hs]
    exact h (k + 1) (Nat.succ_lt_succ hk)

/-- The numbered-candidate loop returns the first non-existing
candidate: if the candidates at offsets `0, …, i-1` from `start` all
exist and the one at offset `i` does not (with `i` within `fuel`), the
result is the candidate at offset `i`. -/
theorem findCandidate_first_gap (ex : String → Bool) (dir base : String) :
    ∀ fuel start i, i < fuel →
    (∀ k, k < i → ex (candidatePath dir base (start + k)) = true) →
    ex (candidatePath dir base (start + i)) = false →
    findCandidate ex dir base fuel start = candidatePath dir base (start + i) := by
  intro fuel
  induction fuel with
  | zero =>
    intro start i hi
    exact absurd hi (Nat.not_lt_zero i)
  | succ n ih =>
    intro start i hi hall hgap
    cases i with
    | zero =>
      have h0 : ex (candidatePath dir base start) = false := by simpa using hgap
      simp only [findCandidate, h0, Bool.false_eq_true, if_false]
      simp
    | succ j =>
      have h0 : ex (candidatePath dir base start) = true := by
        have := hall 0 (Nat.succ_pos j)
        simpa using this
      simp only [findCandidate, h0, if_true]
      have hs : start + 1 + j = start + (j + 1) := by omega
      have hall' : ∀ k, k < j → ex (candidatePath dir base (start + 1 + k)) = true := by
        intro k hk
        have hk2 : start + 1 + k = start + (k + 1) := by omega
        rw [hk2]
        exact hall (k + 1) (Nat.succ_lt_succ hk)
      have hgap' : ex (candidatePath dir base (start + 1 + j)) = false := by
        rw [hs]
        exact hgap
      have := ih (start + 1) j (Nat.lt_of_succ_lt_succ hi) hall' hgap'
      rw [this, hs]

/-- C5: the output-path naming rule — `<stem>_unlocked.pdf` when free;
otherwise the first free `<stem>_unlocked_i.pdf` for `i` from 1 to 9999
in order; and when the base name and all 9999 numbered candidates
exist, `<stem>_unlocked_overflow.pdf` (which may collide). -/
theorem unique_output_path_spec (ex : String → Bool) (dir stem : String) :
    (ex (dir ++ "/" ++ (stem ++ "_unlocked") ++ ".pdf") = false →
      unique_output_path ex dir stem = dir ++ "/" ++ (stem ++ "_unlocked") ++ ".pdf")
    ∧ (ex (dir ++ "/" ++ (stem ++ "_unlocked") ++ ".pdf") = true →
       ∀ i, 1 ≤ i → i ≤ 9999 →
       ex (candidatePath dir (stem ++ "_unlocked") i) = false →
       (∀ j, 1 ≤ j → j < i → ex (candidatePath dir (stem ++ "_unlocked") j) = true) →
       unique_output_path ex dir stem = candidatePath dir (stem ++ "_unlocked") i)
    ∧ (ex (dir ++ "/" ++ (stem ++ "_unlocked") ++ ".pdf") = true →
       (∀ i, 1 ≤ i → i ≤ 9999 → ex (candidatePath dir (stem ++ "_unlocked") i) = true) →
       unique_output_path ex dir stem =
         dir ++ "/" ++ (stem ++ "_unlocked") ++ "_overflow.pdf") := by
  refine ⟨?_, ?_, ?_⟩
  · intro h
    simp only [unique_output_path, h, Bool.false_eq_true, if_false]
  · intro h i h1 h2 hgap hall
    simp only [unique_output_path, h, if_true]
    have hi : i = 1 + (i - 1) := by omega
    have hfg := findCandidate_first_gap ex dir (stem ++ "_unlocked") 9999 1 (i - 1)
      (by omega)
      (by
        intro k hk
        have hk2 : 1 + k = k + 1 := by omega
        rw [hk2]
        exact hall (k + 1) (by omega) (by omega))
      (by rw [← hi]; exact hgap)
    rw [hfg, ← hi]
  · intro h hall
    simp only [unique_output_path, h, if_true]
    apply findCandidate_all_exist
    intro k hk
    exact hall (1 + k) (by omega) (by omega)

/-- An existence predicate for the C5 witness: exactly the base output
name and the first numbered candidate for stem `a` in directory `d`
exist. -/
def exW : String → Bool :=
  fun p => p = "d/a_unlocked.pdf" || p = "d/a_unlocked_1.pdf"

/-- Witness for C5: with `a_unlocked.pdf` and `a_unlocked_1.pdf` taken,
the chosen output path is `a_unlocked_2.pdf`. -/
theorem unique_output_path_spec_witness :
    unique_output_path exW "d" "a" = "d/a_unlocked_2.pdf" := by
  have h := (unique_output_path_spec exW "d" "a").2.1 (by decide) 2 (by decide) (by decide)
    (by decide)
    (fun j h1 h2 => by
      have hj : j = 1 := by omega
      subst hj
      decide)
  exact h.trans (by decide)

/-- A state with one entry present but a broken tool and an empty
result line. -/
def stBadTool : AppState :=
  { st0 with
    file_entries := [entryA],
    qpdf_ok := false,
    qpdf_error := some "qpdf 运行失败（依赖缺失或版本不匹配）" }

/-- C3 counterexample: with the tool not ok, the mascot-click unlock
path spawns no worker but is not a no-op — it overwrites `result_text`
with the stored tool error, so session state does change. -/
theorem click_with_bad_tool_changes_state :
    (click_unlock stBadTool).2 = none
    ∧ (click_unlock stBadTool).1 ≠ stBadTool
    ∧ (click_unlock stBadTool).1.result_text = "qpdf 运行失败（依赖缺失或版本不匹配）" := by
  exact ⟨rfl, by decide, rfl⟩

/-- C3 amended: `start_unlock` is a no-op when an unlock is already in
progress or the list is empty; the tool-status guard lives in the click
handler, which on a not-ok tool spawns no worker and leaves everything
unchanged except `result_text`, set to the stored tool error; otherwise
the click sets `unlock_in_progress`, clears the two rendezvous flags,
sets `result_text` to 处理中..., switches to Peck with two loops, and
spawns the worker on a snapshot of the entries. -/
theorem start_unlock_behavior (s : AppState) :
    (s.unlock_in_progress = true ∨ s.file_entries = [] → start_unlock s = (s, none))
    ∧ (s.qpdf_ok = false → (click_unlock s).2 = none
        ∧ (click_unlock s).1 =
          (match s.qpdf_error with
           | some msg => { s with result_text := msg }
           | none => s))
    ∧ (s.unlock_in_progress = false → s.file_entries ≠ [] → s.qpdf_ok = true →
        click_unlock s =
          ({ s with
              unlock_in_progress := true,
              unlock_ready_for_success := false,
              unlock_work_done := false,
              result_text := "处理中...",
              animation := AnimationState.mk AnimationMode.Peck 0 2,
              unlock_rx := true },
            some s.file_entries)) := by
  refine ⟨?_, ?_, ?_⟩
  · intro h
    cases h with
    | inl h => simp [start_unlock, h]
    | inr h => simp [start_unlock, h]
  · intro h
    unfold click_unlock
    rw [h]
    cases s.qpdf_error <;> simp
  · intro h1 h2 h3
    have hemp : s.file_entries.isEmpty = false := by
      cases hfe : s.file_entries with
      | nil => exact absurd hfe h2
      | cons a l => rfl
    unfold click_unlock start_unlock start_peck
    rw [h3]
    simp [h1, hemp]

/-- Witness for C3 amended: clicking on a healthy one-entry session
starts Peck and spawns the worker with the snapshot. -/
theorem start_unlock_behavior_witness :
    click_unlock { st0 with file_entries := [entryA] } =
      ({ st0 with
          file_entries := [entryA],
          unlock_in_progress := true,
          unlock_ready_for_success := false,
          unlock_work_done := false,
          result_text := "处理中...",
          animation := AnimationState.mk AnimationMode.Peck 0 2,
          unlock_rx := true },
        some [entryA]) := by
  have h := (start_unlock_behavior { st0 with file_entries := [entryA] }).2.2
    (by decide) (by decide) (by decide)
  exact h.trans (by decide)

/-- When the rendezvous guard fails, `maybe_start_success_animation`
leaves the state untouched. -/
theorem maybe_start_not_ready (s : AppState)
    (h : (s.unlock_ready_for_success && s.unlock_work_done) = false) :
    maybe_start_success_animation s = s := by
  unfold maybe_start_success_animation
  rw [h]
  rfl

/-- When the rendezvous guard holds, `maybe_start_success_animation`
switches the mode to Success and does not touch the two flags. -/
theorem maybe_start_ready (s : AppState)
    (h : (s.unlock_ready_for_success && s.unlock_work_done) = true) :
    (maybe_start_success_animation s).animation.mode = AnimationMode.Success
    ∧ (maybe_start_success_animation s).unlock_ready_for_success = s.unlock_ready_for_success
    ∧ (maybe_start_success_animation s).unlock_work_done = s.unlock_work_done := by
  unfold maybe_start_success_animation
  rw [h]
  simp only [Bool.not_true, Bool.false_eq_true, if_false]
  refine ⟨?_, ?_, ?_⟩
  · rfl
  · split <;> first | rfl | (split <;> rfl)
  · split <;> first | rfl | (split <;> rfl)

/-- The `add_files` loop body never touches the animation state or the
rendezvous flags. -/
theorem add_one_preserves (probe : String → Option Bool) (acc : AppState × Bool) (p : String) :
    (add_one probe acc p).1.animation = acc.1.animation
    ∧ (add_one probe acc p).1.unlock_ready_for_success = acc.1.unlock_ready_for_success
    ∧ (add_one probe acc p).1.unlock_work_done = acc.1.unlock_work_done := by
  obtain ⟨s, added⟩ := acc
  simp only [add_one]
  split
  · exact ⟨rfl, rfl, rfl⟩
  · split
    · exact ⟨rfl, rfl, rfl⟩
    · exact ⟨rfl, rfl, rfl⟩

/-- Folding the `add_files` loop body never touches the animation
state. -/
theorem foldl_add_one_animation (probe : String → Option Bool) :
    ∀ (paths : List String) (acc : AppState × Bool),
    ((paths.foldl (add_one probe) acc).1).animation = acc.1.animation := by
  intro paths
  induction paths with
  | nil => intro acc; rfl
  | cons p ps ih =>
    intro acc
    rw [List.foldl_cons, ih, (add_one_preserves probe acc p).1]

/-- `add_files` never touches the animation state. -/
theorem add_files_animation (probe : String → Option Bool) (s : AppState)
    (paths : List String) :
    (add_files probe s paths).animation = s.animation := by
  unfold add_files
  by_cases hh : s.had_unlock = true <;>
    simp only [hh, if_true, Bool.false_eq_true, if_false] <;>
    split <;>
    simp [foldl_add_one_animation]

/-- A `FileResult` message never touches the animation state. -/
theorem apply_message_fileresult_animation (probe : String → Option Bool) (s : AppState)
    (i : Nat) (b : Bool) (op : Option String) :
    (apply_message probe s (UnlockMessage.FileResult i b op)).animation = s.animation := by
  cases h : s.file_entries.get? i with
  | none => simp only [apply_message, h]
  | some e => simp only [apply_message, h]

/-- An `Info` message never touches the animation state. -/
theorem apply_message_info_animation (probe : String → Option Bool) (s : AppState)
    (m : String) :
    (apply_message probe s (UnlockMessage.Info m)).animation = s.animation := by
  simp only [apply_message]
  split <;> rfl

/-- `set_mode` either leaves the state unchanged or switches to the
requested mode. -/
theorem set_mode_cases (s : AppState) (m : AnimationMode) :
    set_mode s m = s ∨ (set_mode s m).animation.mode = m := by
  unfold set_mode
  split
  · right; rfl
  · left; rfl

/-- The mascot-click unlock path leaves the mode unchanged or switches
it to Peck, never to Success. -/
theorem click_unlock_mode (s : AppState) :
    (click_unlock s).1.animation.mode = s.animation.mode
    ∨ (click_unlock s).1.animation.mode = AnimationMode.Peck := by
  unfold click_unlock start_unlock start_peck
  split
  · cases s.qpdf_error <;> simp
  · split
    · left; rfl
    · right; rfl

/-- A tick in Logo mode is a no-op. -/
theorem tick_logo (s : AppState) (hm : s.animation.mode = AnimationMode.Logo) :
    tick_animation s = s := by
  unfold tick_animation
  rw [if_pos hm]

/-- A tick in HappyLoop mode stays in HappyLoop mode. -/
theorem tick_happy (s : AppState) (hm : s.animation.mode = AnimationMode.HappyLoop) :
    (tick_animation s).animation.mode = AnimationMode.HappyLoop := by
  unfold tick_animation frameCount
  simp [hm]

/-- A tick in Peck mode either does not land in Success mode, or it has
set `ready_for_success` and found `work_done` already set — the Peck
exit path runs the rendezvous check. -/
theorem tick_peck_cases (s : AppState) (hm : s.animation.mode = AnimationMode.Peck) :
    (tick_animation s).animation.mode ≠ AnimationMode.Success
    ∨ ((tick_animation s).unlock_ready_for_success = true
       ∧ (tick_animation s).unlock_work_done = true) := by
  unfold tick_animation frameCount set_mode
  simp only [hm, reduceCtorEq, if_false, ite_false, ne_eq, not_false_eq_true, if_true, ite_true]
  by_cases hfi : (s.animation.frame_index + 1) % 2 = 0
  · rw [if_pos hfi]
    by_cases hll : (if 0 < s.animation.loops_left then s.animation.loops_left - 1
        else s.animation.loops_left) = 0
    · rw [if_pos hll]
      set t : AppState :=
        { s with
          animation := { mode := AnimationMode.Logo, frame_index := 0, loops_left := 0 },
          unlock_ready_for_success := true } with ht
      by_cases hd : s.unlock_work_done = true
      · right
        have hg : (t.unlock_ready_for_success && t.unlock_work_done) = true := by
          rw [ht]
          simp [hd]
        have h := maybe_start_ready t hg
        rw [h.2.1, h.2.2]
        exact ⟨rfl, hd⟩
      · left
        have hdf : s.unlock_work_done = false := by
          revert hd
          cases s.unlock_work_done <;> simp
        have hg : (t.unlock_ready_for_success && t.unlock_work_done) = false := by
          rw [ht]
          simp [hdf]
        rw [maybe_start_not_ready t hg]
        simp [ht]
    · rw [if_neg hll]
      left
      intro hc
      exact AnimationMode.noConfusion hc
  · rw [if_neg hfi]
    left
    intro hc
    exact AnimationMode.noConfusion hc

/-- One observable session-controller operation, as invoked from
`CrackLeafApp::update`: an animation tick, draining one worker message,
an Add of dropped or picked paths, the mascot-click unlock path, and
the hover-driven mode switches. -/
inductive Step : AppState → AppState → Prop where
  | tick (s : AppState) : Step s (tick_animation s)
  | pump (probe : String → Option Bool) (s : AppState) (msg : UnlockMessage) :
      Step s (apply_message probe s msg)
  | add (probe : String → Option Bool) (s : AppState) (paths : List String) :
      Step s (add_files probe s paths)
  | click (s : AppState) : Step s (click_unlock s).1
  | hover_logo (s : AppState) : Step s (set_mode s AnimationMode.Logo)
  | hover_happy (s : AppState) : Step s (start_happy_loop s)

/-- C1: across every session-controller operation, a transition into
the Success animation happens only with both rendezvous flags set —
`ready_for_success` (the Peck loop count reached zero) and `work_done`
(the worker's Done was received); whichever side finishes first, no
operation enters Success while either flag is still false. -/
theorem success_only_after_rendezvous (s t : AppState) (hstep : Step s t)
    (hpre : s.animation.mode ≠ AnimationMode.Success)
    (hpost : t.animation.mode = AnimationMode.Success) :
    t.unlock_ready_for_success = true ∧ t.unlock_work_done = true := by
  cases hstep with
  | tick =>
    cases hm : s.animation.mode with
    | Logo =>
      rw [tick_logo s hm] at hpost
      exact absurd hpost hpre
    | HappyLoop =>
      exact absurd ((tick_happy s hm).symm.trans hpost) (by intro hc; exact AnimationMode.noConfusion hc)
    | Peck =>
      rcases tick_peck_cases s hm with h | h
      · exact absurd hpost h
      · exact h
    | Success => exact absurd hm hpre
  | pump probe s msg =>
    cases msg with
    | FileResult i b op =>
      rw [show (apply_message probe s (UnlockMessage.FileResult i b op)).animation.mode
            = s.animation.mode from congrArg AnimationState.mode
            (apply_message_fileresult_animation probe s i b op)] at hpost
      exact absurd hpost hpre
    | Info m =>
      rw [show (apply_message probe s (UnlockMessage.Info m)).animation.mode
            = s.animation.mode from congrArg AnimationState.mode
            (apply_message_info_animation probe s m)] at hpost
      exact absurd hpost hpre
    | Done =>
      have hgoal : apply_message probe s UnlockMessage.Done =
          maybe_start_success_animation
            { s with unlock_work_done := true, had_unlock := true, unlock_rx := false } := rfl
      rw [hgoal] at hpost ⊢
      set u : AppState :=
        { s with unlock_work_done := true, had_unlock := true, unlock_rx := false } with hu
      by_cases hg : (u.unlock_ready_for_success && u.unlock_work_done) = true
      · have h := maybe_start_ready u hg
        have hflags := Bool.and_eq_true _ _ |>.mp hg
        exact ⟨h.2.1.trans hflags.1, h.2.2.trans hflags.2⟩
      · exfalso
        have hgf : (u.unlock_ready_for_success && u.unlock_work_done) = false := by
          revert hg
          cases (u.unlock_ready_for_success && u.unlock_work_done) <;> simp
        rw [maybe_start_not_ready u hgf] at hpost
        exact hpre hpost
  | add probe s paths =>
    rw [show (add_files probe s paths).animation.mode = s.animation.mode from
      congrArg AnimationState.mode (add_files_animation probe s paths)] at hpost
    exact absurd hpost hpre
  | click =>
    rcases click_unlock_mode s with h | h
    · exact absurd (h.symm.trans hpost) hpre
    · exact absurd (h.symm.trans hpost)
        (by intro hc; exact AnimationMode.noConfusion hc)
  | hover_logo =>
    rcases set_mode_cases s AnimationMode.Logo with h | h
    · rw [h] at hpost; exact absurd hpost hpre
    · exact absurd (h.symm.trans hpost)
        (by intro hc; exact AnimationMode.noConfusion hc)
  | hover_happy =>
    rcases set_mode_cases s AnimationMode.HappyLoop with h | h
    · rw [show start_happy_loop s = s from h] at hpost
      exact absurd hpost hpre
    · exact absurd (h.symm.trans hpost)
        (by intro hc; exact AnimationMode.noConfusion hc)

/-- A state waiting on the worker: Peck satisfied (`ready_for_success`
set, back in Logo mode), Done not yet received. -/
def stAwaitDone : AppState :=
  { st0 with
    file_entries := [FileEntry.mk "a.pdf" "🔓" "解锁成功" (some true) (some "d/a_unlocked.pdf")],
    unlock_in_progress := true,
    unlock_ready_for_success := true,
    unlock_work_done := false,
    result_text := "处理中...",
    unlock_rx := true }

/-- Witness for C1: receiving Done in a Peck-satisfied state enters
Success with both flags set. -/
theorem success_only_after_rendezvous_witness :
    (apply_message probeNone stAwaitDone UnlockMessage.Done).unlock_ready_for_success = true
    ∧ (apply_message probeNone stAwaitDone UnlockMessage.Done).unlock_work_done = true :=
  success_only_after_rendezvous stAwaitDone
    (apply_message probeNone stAwaitDone UnlockMessage.Done)
    (Step.pump probeNone stAwaitDone UnlockMessage.Done)
    (by decide) (by decide)

end CrackLeaf
